import Mathlib

/-!
Shallow embedding of the dynamic SQL-building core of the jobly backend:
the partial-update SET-clause builder (`sqlForPartialUpdate`) and the
filtered-query builder inside `Job.findAll`, together with the guard and
composition logic of `Job.update`.

JavaScript values flowing through these functions are modelled by `JSVal`
(strings, integers, booleans, null), with JS truthiness made explicit.
Optional arguments (`title=null`, …) are modelled with `Option`; `none`
plays the role of `null`/`undefined`.
-/

/-- A JavaScript scalar value as it appears in update payloads and bound
parameter lists: a string, a number, a boolean, or null. -/
inductive JSVal where
  | str (s : String)
  | num (n : Int)
  | bool (b : Bool)
  | null
deriving DecidableEq, Repr

/-- JS truthiness of a `JSVal`: empty string, zero, `false` and `null` are
falsy, everything else is truthy. -/
def JSVal.truthy : JSVal → Bool
  | .str s => s != ""
  | .num n => n != 0
  | .bool b => b
  | .null => false

/-- Truthiness of an optional JS value (`none` models `null`/`undefined`,
which are falsy). Used for `data.id || data.companyHandle` style guards. -/
def jsTruthyOpt : Option JSVal → Bool
  | none => false
  | some v => v.truthy

/-- Truthiness of the optional `title` argument of `Job.findAll`:
`if (title)` is false for `null` and for the empty string. -/
def truthyStr : Option String → Bool
  | none => false
  | some s => s != ""

/-- Truthiness of the optional `minSalary` argument of `Job.findAll`:
`if (minSalary)` is false for `null` and for `0`. -/
def truthyInt : Option Int → Bool
  | none => false
  | some n => n != 0

/-- Truthiness of the optional `hasEquity` argument of `Job.findAll`:
`if (hasEquity)` is false for `null` and for `false`. -/
def truthyBool : Option Bool → Bool
  | none => false
  | some b => b

/-- The string stored in an optional argument, defaulting to `""`. -/
def strOrEmpty : Option String → String
  | none => ""
  | some s => s

/-- The integer stored in an optional argument, defaulting to `0`. -/
def intOrZero : Option Int → Int
  | none => 0
  | some n => n

/-- The filter-accumulation loop of `Job.findAll` (src/models/job.js):
starting from empty `filters`/`values` lists and `idx = 1`, each truthy
argument appends one predicate fragment and one bound value and bumps
`idx`, in the fixed order title, minSalary, hasEquity. Returns the final
`(filters, values)` pair. -/
def findAllBuild (title : Option String) (minSalary : Option Int)
    (hasEquity : Option Bool) : List String × List JSVal :=
  let filters : List String := []
  let values : List JSVal := []
  let idx : Nat := 1
  let step1 :=
    if truthyStr title then
      (filters ++ ["LOWER(title) LIKE $" ++ toString idx],
       values ++ [JSVal.str ("%" ++ strOrEmpty title ++ "%")],
       idx + 1)
    else (filters, values, idx)
  let step2 :=
    if truthyInt minSalary then
      (step1.1 ++ ["salary >= $" ++ toString step1.2.2],
       step1.2.1 ++ [JSVal.num (intOrZero minSalary)],
       step1.2.2 + 1)
    else step1
  let step3 :=
    if truthyBool hasEquity then
      (step2.1 ++ ["equity !=  $" ++ toString step2.2.2],
       step2.2.1 ++ [JSVal.str "0"],
       step2.2.2 + 1)
    else step2
  (step3.1, step3.2.1)

/-- The SELECT statement `Job.findAll` executes when at least one filter
was produced: the fragments are joined with " AND " and wrapped in one
parenthesized group after WHERE. `clause` is `filters.join(" AND ")`. -/
def findAllQueryFiltered (clause : String) : String :=
  "SELECT title,\n                salary,\n                equity,\n                company_handle AS \"companyHandle\"\n        FROM jobs\n        WHERE (" ++ clause ++ ")\n        ORDER BY title"

/-- The SELECT statement `Job.findAll` executes when no filter was
produced: no WHERE fragment at all. -/
def findAllQueryPlain : String :=
  "SELECT title,\n                salary,\n                equity,\n                company_handle AS \"companyHandle\"\n         FROM jobs\n         ORDER BY title"

/-- The full query composition of `Job.findAll`: build the filters, then
pick the filtered or the plain statement depending on whether any filter
fragment was produced, pairing it with the bound values. -/
def findAllQuery (title : Option String) (minSalary : Option Int)
    (hasEquity : Option Bool) : String × List JSVal :=
  let p := findAllBuild title minSalary hasEquity
  if p.1.length > 0 then
    (findAllQueryFiltered (String.intercalate " AND " p.1), p.2)
  else
    (findAllQueryPlain, p.2)

/-- Whether `pat` occurs as a contiguous substring of a character list.
Used to state that a composed query contains (or does not contain) a given
SQL keyword. -/
def listContainsSub (pat : List Char) : List Char → Bool
  | [] => pat.isEmpty
  | c :: rest => (pat.isPrefixOf (c :: rest) || listContainsSub pat rest)

/-- The number of criteria that are present (argument given, not null) and
not the boolean `false`, read off the spec sentence "the number of
predicates emitted equals the number of present, non-false criteria". -/
def specPresentNonFalse (title : Option String) (minSalary : Option Int)
    (hasEquity : Option Bool) : Nat :=
  (if title ≠ none then 1 else 0) + (if minSalary ≠ none then 1 else 0) +
    (if hasEquity ≠ none ∧ hasEquity ≠ some false then 1 else 0)

/-- Errors raised by the model layer: BadRequestError and NotFoundError,
distinguished by kind and carrying their message. -/
inductive JobError where
  | badRequest (msg : String)
  | notFound (msg : String)
deriving DecidableEq, Repr

/-- Column-name resolution of the partial-update builder:
`jsToSql[colName] || colName`, i.e. the mapped physical column when the
key is in the field map, else the key itself. -/
def colFor (jsToSql : List (String × String)) (colName : String) : String :=
  (jsToSql.lookup colName).getD colName

/-- The SET fragments of the partial-update builder, one per payload key in
iteration order: the fragment at index `i` is `"<column>"=$<i+1>`. -/
def setFragments (jsToSql : List (String × String))
    (dataToUpdate : List (String × JSVal)) : List String :=
  (List.range dataToUpdate.length).map fun i =>
    "\"" ++ colFor jsToSql (dataToUpdate.getD i ("", JSVal.null)).1 ++ "\"=$"
      ++ toString (i + 1)

/-- Modelled from the spec: the partial-update clause builder
`sqlForPartialUpdate` of helpers/sql.js is not among the provided sources
(only its test file and its caller `Job.update` are), so it is rendered
from §4.1 of the spec. An update payload is an ordered association list
(stable insertion-order iteration, per the spec's design notes); an empty
payload fails with BadRequest before any SQL text is generated; otherwise
each key yields the fragment `"<column>"=$<position>` with 1-based
positions in iteration order, the fragments are joined with ", ", and the
payload's values are collected unchanged, in the same order. -/
def sqlForPartialUpdate (dataToUpdate : List (String × JSVal))
    (jsToSql : List (String × String)) :
    Except JobError (String × List JSVal) :=
  if dataToUpdate.isEmpty then
    .error (.badRequest "no data provided for update")
  else
    .ok (String.intercalate ", " (setFragments jsToSql dataToUpdate),
         dataToUpdate.map Prod.snd)

/-- The field map `Job.update` passes to the builder: only `companyHandle`
is mapped; every other key falls back to itself as the column name. -/
def jobJsToSql : List (String × String) := [("companyHandle", "company_handle")]

/-- The UPDATE statement template of `Job.update`, with the SET clause and
the id placeholder interpolated where job.js puts them. -/
def jobUpdateQuery (setCols : String) (idVarIdx : String) : String :=
  "UPDATE jobs \n                      SET " ++ setCols ++
    " \n                      WHERE id = " ++ idVarIdx ++
    " \n                      RETURNING id,\n                                title,\n                                salary,\n                                equity,\n                                company_handle AS \"companyHandle\""

/-- The statement-building part of `Job.update` (src/models/job.js): the
truthiness guards on `data`, `data.id` and `data.companyHandle`, the call
to the partial-update builder with `jobJsToSql`, the id placeholder
`"$" + (values.length + 1)`, and the parameter list `[...values, id]`.
Returns the (querySql, parameters) pair handed to `db.query`, or the
error raised before any statement is executed. -/
def jobUpdateStmt (id : Int) (data : Option (List (String × JSVal))) :
    Except JobError (String × List JSVal) :=
  match data with
  | none => .error (.badRequest "Data is required")
  | some d =>
    if jsTruthyOpt (List.lookup "id" d) || jsTruthyOpt (List.lookup "companyHandle" d) then
      .error (.badRequest "Job id and companyHandle can not be changed")
    else
      match sqlForPartialUpdate d jobJsToSql with
      | .error e => .error e
      | .ok (setCols, values) =>
        .ok (jobUpdateQuery setCols ("$" ++ toString (values.length + 1)),
             values ++ [JSVal.num id])

/-- A database row, modelled as an association list from physical column
names to values. -/
abbrev JobRow := List (String × JSVal)

/-- The effect of the composed UPDATE on one matched row: each payload
entry overwrites the column it resolves to through `jobJsToSql`. -/
def applySet (d : List (String × JSVal)) (row : JobRow) : JobRow :=
  row.map fun cv =>
    match d.find? (fun kv => colFor jobJsToSql kv.1 == cv.1) with
    | some kv => (cv.1, kv.2)
    | none => cv

/-- `Job.update` end to end against a modelled jobs table: build the
statement (possibly failing with BadRequest), execute the UPDATE — the
rows whose `id` column equals the given id are updated and returned — and
raise NotFound when `result.rows[0]` is absent, i.e. when the statement
returned zero rows. -/
def jobUpdateRun (db : List JobRow) (id : Int)
    (data : Option (List (String × JSVal))) : Except JobError JobRow :=
  match jobUpdateStmt id data with
  | .error e => .error e
  | .ok _ =>
    let d := data.getD []
    let rows := (db.filter fun r =>
      decide (List.lookup "id" r = some (JSVal.num id))).map (applySet d)
    match rows with
    | [] => .error (.notFound ("No job with id of " ++ toString id))
    | r :: _ => .ok r

/-- The update payload of the sqlForPartialUpdate unit test:
`{numEmployees: 5, description: "Description 3"}` in insertion order. -/
def updExample : List (String × JSVal) :=
  [("numEmployees", JSVal.num 5), ("description", JSVal.str "Description 3")]

/-- The field map of the sqlForPartialUpdate unit test:
`{numEmployees: "num_employees", description: "description"}`. -/
def mapExample : List (String × String) :=
  [("numEmployees", "num_employees"), ("description", "description")]

/-- The `updateData` payload of the Job.update unit tests:
`{title: "New", salary: 999999, equity: "0.05"}`. -/
def updateDataEx : List (String × JSVal) :=
  [("title", JSVal.str "New"), ("salary", JSVal.num 999999),
   ("equity", JSVal.str "0.05")]

/-- A one-row jobs table whose only row has id 1, used to exercise the
zero-rows-updated path of `jobUpdateRun`. -/
def dbEx : List JobRow := [[("id", JSVal.num 1), ("title", JSVal.str "j1")]]

/-- C2 counterexample: the claim counts present, non-false criteria, but
the code tests JS truthiness: `minSalary = 0` is present and is not
`false`, yet `if (minSalary)` is false, so no predicate is emitted. -/
theorem findAll_count_presentNonFalse_cex :
    (findAllBuild none (some 0) none).1.length = 0 ∧
    specPresentNonFalse none (some 0) none = 1 := by
  decide

/-- C2 (amended): the number of predicates emitted by Job.findAll equals
the number of truthy criteria (non-empty title, non-zero minSalary, true
hasEquity), and the present predicates always appear in the fixed order
text-contains, numeric-threshold, boolean-flag, with positional
parameters numbered consecutively from 1 in that order. -/
theorem findAll_count_truthy (t : Option String) (m : Option Int)
    (h : Option Bool) :
    (findAllBuild t m h).1.length =
      (if truthyStr t then 1 else 0) + (if truthyInt m then 1 else 0) +
        (if truthyBool h then 1 else 0) ∧
    (findAllBuild t m h).1 =
      (if truthyStr t then ["LOWER(title) LIKE $1"] else []) ++
       (if truthyInt m then
         ["salary >= $" ++ toString (1 + (if truthyStr t then 1 else 0))]
        else []) ++
       (if truthyBool h then
         ["equity !=  $" ++ toString (1 + (if truthyStr t then 1 else 0)
           + (if truthyInt m then 1 else 0))]
        else []) := by
  cases ha : truthyStr t <;> cases hb : truthyInt m <;>
    cases hc : truthyBool h <;> simp [findAllBuild, ha, hb, hc] <;> decide

/-- C4 counterexample: with hasEquity true the code emits the fragment
"equity !=  $1" (two spaces before the placeholder), not the fragment
"equity != $1" claimed by the spec. -/
theorem equity_fragment_two_spaces_cex :
    (findAllBuild none none (some true)).1 = ["equity !=  $1"] ∧
    (findAllBuild none none (some true)).1 ≠ ["equity != $1"] := by
  decide

/-- C4 (amended): the text-contains criterion emits exactly
`LOWER(title) LIKE $n` binding the pattern wrapped as %value%, the
numeric-threshold criterion emits exactly `salary >= $n` binding the
threshold unchanged, and the boolean-flag criterion (when true) emits
exactly `equity !=  $n` — with two spaces before the placeholder —
binding the string "0"; titleLike="2" with minSalary=200000 yields the
clause (LOWER(title) LIKE $1 AND salary >= $2) with values
["%2%", 200000]. -/
theorem findAll_fragments_exact (t : Option String) (m : Option Int)
    (h : Option Bool) :
    findAllBuild t m h =
      ((if truthyStr t then ["LOWER(title) LIKE $1"] else []) ++
        (if truthyInt m then
          ["salary >= $" ++ toString (1 + (if truthyStr t then 1 else 0))]
         else []) ++
        (if truthyBool h then
          ["equity !=  $" ++ toString (1 + (if truthyStr t then 1 else 0)
            + (if truthyInt m then 1 else 0))]
         else []),
       (if truthyStr t then [JSVal.str ("%" ++ strOrEmpty t ++ "%")] else []) ++
        (if truthyInt m then [JSVal.num (intOrZero m)] else []) ++
        (if truthyBool h then [JSVal.str "0"] else [])) ∧
    "(" ++ String.intercalate " AND "
        (findAllBuild (some "2") (some 200000) none).1 ++ ")" =
      "(LOWER(title) LIKE $1 AND salary >= $2)" ∧
    (findAllBuild (some "2") (some 200000) none).2 =
      [JSVal.str "%2%", JSVal.num 200000] := by
  refine ⟨?_, by decide, by decide⟩
  cases ha : truthyStr t <;> cases hb : truthyInt m <;>
    cases hc : truthyBool h <;> simp [findAllBuild, ha, hb, hc] <;> decide

/-- C5: with all criteria absent Job.findAll produces empty filter and
value lists and its query contains no WHERE keyword; more generally,
whenever zero predicates are produced the plain (WHERE-free) statement is
used, and whenever at least one predicate is produced the fragments are
joined with " AND ", wrapped in one parenthesized group after WHERE, and
paired with the builder's value list. -/
theorem findAll_where_composition :
    findAllBuild none none none = ([], []) ∧
    listContainsSub "WHERE".toList (findAllQuery none none none).1.toList
      = false ∧
    (∀ (t : Option String) (m : Option Int) (h : Option Bool),
      (findAllBuild t m h).1 = [] →
      (findAllQuery t m h).1 = findAllQueryPlain ∧
      listContainsSub "WHERE".toList findAllQueryPlain.toList = false) ∧
    ∀ (t : Option String) (m : Option Int) (h : Option Bool),
      (findAllBuild t m h).1 ≠ [] →
      (findAllQuery t m h).1 =
        findAllQueryFiltered
          (String.intercalate " AND " (findAllBuild t m h).1) ∧
      (findAllQuery t m h).2 = (findAllBuild t m h).2 := by
  refine ⟨by decide, by decide, ?_, ?_⟩
  · intro t m h hfl
    have hlen : (findAllBuild t m h).1.length = 0 := by simp [hfl]
    exact ⟨by simp [findAllQuery, hlen], by decide⟩
  · intro t m h hne
    have hlen : 0 < (findAllBuild t m h).1.length := List.length_pos.mpr hne
    exact ⟨by simp [findAllQuery, hlen], by simp [findAllQuery, hlen]⟩

/-- C5 witness: with titleLike "a" one predicate is produced and the
composed query is the filtered statement with that predicate
parenthesized after WHERE, paired with the builder's values. -/
theorem findAll_where_composition_witness :
    (findAllBuild (some "a") none none).1 ≠ [] ∧
    ((findAllQuery (some "a") none none).1 =
      findAllQueryFiltered
        (String.intercalate " AND " (findAllBuild (some "a") none none).1) ∧
     (findAllQuery (some "a") none none).2 =
       (findAllBuild (some "a") none none).2) :=
  ⟨by decide, findAll_where_composition.2.2.2 (some "a") none none (by decide)⟩

/-- C6: passing hasEquity=false to Job.findAll produces exactly the same
filters, values and composed query as passing hasEquity=null (absent),
for every value of the other two arguments. -/
theorem hasEquity_false_eq_absent (t : Option String) (m : Option Int) :
    findAllBuild t m (some false) = findAllBuild t m none ∧
    findAllQuery t m (some false) = findAllQuery t m none :=
  ⟨rfl, rfl⟩

/-- C1: for every non-empty payload and every field map, the builder
returns the join with ", " of exactly |payload| fragments, the fragment
at index i being the quoted resolved column followed by =$ and the
1-based position i+1 in payload iteration order, together with a value
list of length |payload| whose i-th entry is the value of the i-th
payload key — no gaps, no reordering. -/
theorem sqlForPartialUpdate_shape (d : List (String × JSVal))
    (m : List (String × String)) (hne : d ≠ []) :
    sqlForPartialUpdate d m =
      .ok (String.intercalate ", " (setFragments m d), d.map Prod.snd) ∧
    (setFragments m d).length = d.length ∧
    (d.map Prod.snd).length = d.length ∧
    ∀ i, i < d.length →
      (setFragments m d).getD i "" =
        "\"" ++ colFor m (d.getD i ("", JSVal.null)).1 ++ "\"=$"
          ++ toString (i + 1) ∧
      (d.map Prod.snd).getD i JSVal.null = (d.getD i ("", JSVal.null)).2 := by
  have hie : d.isEmpty = false := by simp [List.isEmpty_eq_false, hne]
  refine ⟨by simp [sqlForPartialUpdate, hie], by simp [setFragments],
    by simp, ?_⟩
  intro i hi
  constructor
  · simp [setFragments, List.getD_eq_getElem?_getD, List.getElem?_map,
      List.getElem?_range hi]
  · simp [List.getD_eq_getElem?_getD, List.getElem?_map,
      List.getElem?_eq_getElem hi]

/-- C1 witness: the unit-test payload {numEmployees: 5, description:
"Description 3"} with its field map satisfies the shape theorem and
evaluates to the clause "num_employees"=$1, "description"=$2 with values
[5, "Description 3"]. -/
theorem sqlForPartialUpdate_shape_witness :
    updExample ≠ [] ∧
    (sqlForPartialUpdate updExample mapExample =
      .ok (String.intercalate ", " (setFragments mapExample updExample),
        updExample.map Prod.snd) ∧
    (setFragments mapExample updExample).length = updExample.length ∧
    (updExample.map Prod.snd).length = updExample.length ∧
    ∀ i, i < updExample.length →
      (setFragments mapExample updExample).getD i "" =
        "\"" ++ colFor mapExample (updExample.getD i ("", JSVal.null)).1
          ++ "\"=$" ++ toString (i + 1) ∧
      (updExample.map Prod.snd).getD i JSVal.null =
        (updExample.getD i ("", JSVal.null)).2) ∧
    sqlForPartialUpdate updExample mapExample =
      .ok ("\"num_employees\"=$1, \"description\"=$2",
        [JSVal.num 5, JSVal.str "Description 3"]) :=
  ⟨by decide, sqlForPartialUpdate_shape updExample mapExample (by decide), rfl⟩

/-- C3: for every field map (including the empty one) the builder fails
with BadRequest on an empty payload without producing any SQL text, and
Job.update with an empty payload propagates that BadRequest without
building any statement. -/
theorem emptyPayload_badRequest :
    (∀ m : List (String × String),
      sqlForPartialUpdate [] m =
        .error (.badRequest "no data provided for update")) ∧
    ∀ id : Int, jobUpdateStmt id (some []) =
      .error (.badRequest "no data provided for update") :=
  ⟨fun _ => rfl, fun _ => rfl⟩

/-- C7: for every non-empty payload passing the guards, Job.update builds
the statement whose id placeholder is $(|values|+1) — the positional
sequence continuing after the SET clause's |values| = |payload|
parameters — and binds the id as the last element of the parameter
list. -/
theorem jobUpdate_id_param_appended (i : Int) (d : List (String × JSVal))
    (hne : d ≠ [])
    (hguard : (jsTruthyOpt (List.lookup "id" d) ||
      jsTruthyOpt (List.lookup "companyHandle" d)) = false) :
    jobUpdateStmt i (some d) =
      .ok (jobUpdateQuery
            (String.intercalate ", " (setFragments jobJsToSql d))
            ("$" ++ toString (d.length + 1)),
           d.map Prod.snd ++ [JSVal.num i]) ∧
    (d.map Prod.snd).length = d.length ∧
    (d.map Prod.snd ++ [JSVal.num i]).getLast? = some (JSVal.num i) := by
  have hie : d.isEmpty = false := by simp [List.isEmpty_eq_false, hne]
  refine ⟨?_, by simp, by simp [List.getLast?_concat]⟩
  simp [jobUpdateStmt, hguard, sqlForPartialUpdate, hie]

/-- C7 witness: updating id 1 with {title: "New", salary: 999999,
equity: "0.05"} numbers the id placeholder $4 after the three SET
parameters and appends the id value last. -/
theorem jobUpdate_id_param_appended_witness :
    updateDataEx ≠ [] ∧
    (jsTruthyOpt (List.lookup "id" updateDataEx) ||
      jsTruthyOpt (List.lookup "companyHandle" updateDataEx)) = false ∧
    (jobUpdateStmt 1 (some updateDataEx) =
      .ok (jobUpdateQuery
            (String.intercalate ", " (setFragments jobJsToSql updateDataEx))
            ("$" ++ toString (updateDataEx.length + 1)),
           updateDataEx.map Prod.snd ++ [JSVal.num 1]) ∧
    (updateDataEx.map Prod.snd).length = updateDataEx.length ∧
    (updateDataEx.map Prod.snd ++ [JSVal.num 1]).getLast? =
      some (JSVal.num 1)) :=
  ⟨by decide, by decide,
    jobUpdate_id_param_appended 1 updateDataEx (by decide) (by decide)⟩

/-- C8: a payload key absent from the field map resolves to itself as the
column name and its emitted fragment quotes it exactly the way mapped
keys are quoted: the i-th fragment is the quoted key followed by
=$(i+1). -/
theorem fallback_column_name (m : List (String × String))
    (d : List (String × JSVal)) (k : String) (i : Nat)
    (hi : i < d.length) (hk : (d.getD i ("", JSVal.null)).1 = k)
    (hm : List.lookup k m = none) :
    colFor m k = k ∧
    (setFragments m d).getD i "" = "\"" ++ k ++ "\"=$" ++ toString (i + 1) := by
  have hcol : colFor m k = k := by simp [colFor, hm]
  have hk2 : (d[i]?.getD ("", JSVal.null)).1 = k := by
    simpa [List.getD_eq_getElem?_getD] using hk
  refine ⟨hcol, ?_⟩
  simp [setFragments, List.getD_eq_getElem?_getD, List.getElem?_map,
    List.getElem?_range hi, hk2, hcol]

/-- C8 witness: Job.update's field map contains only companyHandle, so
the key "title" of the test payload is not in it and its fragment uses
"title" itself as the column. -/
theorem fallback_column_name_witness :
    0 < updateDataEx.length ∧
    (updateDataEx.getD 0 ("", JSVal.null)).1 = "title" ∧
    List.lookup "title" jobJsToSql = none ∧
    (colFor jobJsToSql "title" = "title" ∧
     (setFragments jobJsToSql updateDataEx).getD 0 "" =
       "\"title\"=$" ++ toString (0 + 1)) :=
  ⟨by decide, rfl, by decide,
    fallback_column_name jobJsToSql updateDataEx "title" 0
      (by decide) rfl (by decide)⟩

/-- C9: whenever the built statement is executable (the builder and guards
succeeded) but the UPDATE matches zero rows of the table, Job.update
raises NotFound after execution, and the NotFound kind is distinct from
the builder's BadRequest kind. -/
theorem jobUpdate_notFound_zero_rows (db : List JobRow) (i : Int)
    (data : Option (List (String × JSVal)))
    (hok : ∃ s, jobUpdateStmt i data = Except.ok s)
    (hzero : db.filter (fun r =>
      decide (List.lookup "id" r = some (JSVal.num i))) = []) :
    jobUpdateRun db i data =
      .error (.notFound ("No job with id of " ++ toString i)) ∧
    ∀ s t, JobError.notFound s ≠ JobError.badRequest t := by
  obtain ⟨s, hs⟩ := hok
  refine ⟨?_, fun s t => by simp⟩
  simp [jobUpdateRun, hs, hzero]

/-- C9 witness: updating id 69 with the test payload against a table
whose only row has id 1 builds a statement successfully, matches zero
rows, and fails with NotFound. -/
theorem jobUpdate_notFound_zero_rows_witness :
    (∃ s, jobUpdateStmt 69 (some updateDataEx) = Except.ok s) ∧
    dbEx.filter (fun r =>
      decide (List.lookup "id" r = some (JSVal.num 69))) = [] ∧
    (jobUpdateRun dbEx 69 (some updateDataEx) =
      .error (.notFound ("No job with id of " ++ toString (69 : Int))) ∧
     ∀ s t, JobError.notFound s ≠ JobError.badRequest t) :=
  ⟨⟨_, rfl⟩, by decide,
    jobUpdate_notFound_zero_rows dbEx 69 (some updateDataEx) ⟨_, rfl⟩
      (by decide)⟩

/-- C10: Job.update's pre-builder guards are truthiness-based — a null
data argument raises BadRequest "Data is required"; the id/companyHandle
guard fires exactly when one of those fields is present with a truthy
value; and the falsy payloads {id: 0} and {companyHandle: ""} pass both
guards and reach the SQL builder, producing a statement. -/
theorem jobUpdate_guards_truthiness :
    (∀ i : Int, jobUpdateStmt i none =
      .error (.badRequest "Data is required")) ∧
    (∀ (i : Int) (d : List (String × JSVal)),
      jobUpdateStmt i (some d) =
          .error (.badRequest "Job id and companyHandle can not be changed") ↔
        (jsTruthyOpt (List.lookup "id" d) ||
          jsTruthyOpt (List.lookup "companyHandle" d)) = true) ∧
    jobUpdateStmt 7 (some [("id", JSVal.num 0)]) =
      .ok (jobUpdateQuery "\"id\"=$1" "$2", [JSVal.num 0, JSVal.num 7]) ∧
    jobUpdateStmt 7 (some [("companyHandle", JSVal.str "")]) =
      .ok (jobUpdateQuery "\"company_handle\"=$1" "$2",
        [JSVal.str "", JSVal.num 7]) := by
  refine ⟨fun i => rfl, ?_, rfl, rfl⟩
  intro i d
  cases hg : (jsTruthyOpt (List.lookup "id" d) ||
      jsTruthyOpt (List.lookup "companyHandle" d))
  · cases d with
    | nil => simp [jobUpdateStmt, hg, sqlForPartialUpdate, jsTruthyOpt]
    | cons a l => simp [jobUpdateStmt, hg, sqlForPartialUpdate]
  · simp [jobUpdateStmt, hg]
